import Mathlib

/-!
Verification development for the AG-UI-Agent repository.

The definitions below are shallow embeddings of the Python source files
`src/ag_ui_agent/tools.py`, `src/ag_ui_agent/agent.py`,
`src/ag_ui_agent/server.py` and `src/ag_ui_agent/server_sdk.py`.
External collaborators (the Tavily search provider, the LangGraph agent
stream, the LLM) are modelled as explicit parameters: a provider function,
a list of agent events together with an optional fault, an invoke outcome.
All functions of the repository itself are translated statement by
statement.
-/

/- ===== Embedding of src/ag_ui_agent/tools.py ===== -/

/-- One entry of the Tavily response's "results" list.  Each of the three
fields is read in the Python with `result.get(...)`, so each may be absent:
we model absence with `Option`. -/
structure SearchResult where
  title : Option String
  url : Option String
  content : Option String
deriving DecidableEq

/-- The Tavily response dictionary.  `response.get("results")` may be
absent (`none`) or present with a (possibly empty) list. -/
structure SearchResponse where
  results : Option (List SearchResult)
deriving DecidableEq

/-- Outcome of the provider call `tavily_client.search(...)`: either a
response dictionary, or a raised exception carried as its message
(the Python handler only ever uses `str(e)`). -/
inductive SearchOutcome
  | ok (response : SearchResponse)
  | exn (msg : String)
deriving DecidableEq

/-- A Tavily client is modelled by what the code observes of it: the
function `query ↦ max_results ↦ outcome` of its `search` method. -/
def TavilyClient : Type := String → Nat → SearchOutcome

/-- `Config.TAVILY_MAX_RESULTS = int(os.getenv("TAVILY_MAX_RESULTS", "5"))`
(config.py line 27): the parsed environment value when set, else 5. -/
def Config.TAVILY_MAX_RESULTS (env : Option Nat) : Nat :=
  env.getD 5

/-- One formatted entry of the result block (tools.py lines 43-52):
`f"\n{idx}. {title}\n   URL: {url}\n   {content}\n"` with the three
`result.get` defaults. -/
def formatEntry (idx : Nat) (r : SearchResult) : String :=
  "\n" ++ toString idx ++ ". " ++ r.title.getD "No title" ++ "\n" ++
  "   URL: " ++ r.url.getD "" ++ "\n" ++
  "   " ++ r.content.getD "No content available" ++ "\n"

/-- The strings appended by `for idx, result in enumerate(response["results"], 1)`:
entries numbered consecutively starting from the first argument. -/
def formatEntries : Nat → List SearchResult → List String
  | _, [] => []
  | idx, r :: rest => formatEntry idx r :: formatEntries (idx + 1) rest

/-- `web_search` (tools.py lines 12-57).  `tavily_client` is `none` when no
Tavily API key is configured (tools.py line 9); `max_results` is the value
of `Config.TAVILY_MAX_RESULTS` passed at line 33.  The Python `if not
response.get("results")` treats both a missing key and an empty list as
"no results".  The final branch is
`"\n".join([header] ++ entries)` with `header = f"Search results for: {query}\n"`. -/
def web_search (tavily_client : Option TavilyClient) (max_results : Nat)
    (query : String) : String :=
  match tavily_client with
  | none => "Error: Tavily API key not configured. Cannot perform web search."
  | some client =>
    match client query max_results with
    | .exn msg => "Error performing web search: " ++ msg
    | .ok response =>
      match response.results with
      | none => "No results found for query: " ++ query
      | some [] => "No results found for query: " ++ query
      | some results =>
        String.intercalate "\n"
          (("Search results for: " ++ query ++ "\n") :: formatEntries 1 results)

/- ===== Embedding of src/ag_ui_agent/agent.py (run_agent) ===== -/

/-- The final message of an `agent.invoke` result as the Python observes
it: `content` is `none` when the object has no `content` attribute, and
`str_repr` is `str(final_message)`. -/
structure AgentFinalMessage where
  content : Option String
  str_repr : String
deriving DecidableEq

/-- `run_agent` (agent.py lines 75-99) after the `agent.invoke` call.
`invoke_result` is `none` when the returned dictionary is falsy or lacks a
`"messages"` key (then the function returns `"No response generated"`);
otherwise it is the messages list.  `result["messages"][-1]` on an empty
list raises `IndexError("list index out of range")`, modelled with
`Except.error`; otherwise the function returns `final_message.content`
when the attribute exists, else `str(final_message)`. -/
def run_agent (invoke_result : Option (List AgentFinalMessage)) :
    Except String String :=
  match invoke_result with
  | none => .ok "No response generated"
  | some [] => .error "list index out of range"
  | some (m :: ms) =>
    let fm := (m :: ms).getLast (List.cons_ne_nil m ms)
    .ok (fm.content.getD fm.str_repr)

/- ===== Embedding of src/ag_ui_agent/server.py ===== -/

/-- The response body of `POST /api/chat` (server.py lines 76-100):
`{"type", "content", "metadata"}`.  The metadata fields are present on the
success branch (`conversation_id`, `model`) and absent (`metadata = {}`)
on the error branch. -/
structure ChatResp where
  resp_type : String
  content : String
  meta_conversation_id : Option (Option String)
  meta_model : Option String
deriving DecidableEq

/-- The `chat` handler (server.py lines 76-100; identical in
server_sdk.py lines 90-114).  `invoke_outcome` is what `agent.invoke`
does: a result dictionary or a raised exception (carried as `str(e)`).
`run_agent` runs inside the handler's `try`, so an `IndexError` raised
during extraction is also caught and turned into the `"error"` body. -/
def chat_handler (invoke_outcome : Except String (Option (List AgentFinalMessage)))
    (conversation_id : Option String) (model_cfg : String) : ChatResp :=
  match invoke_outcome with
  | .error m => ⟨"error", m, none, none⟩
  | .ok r =>
    match run_agent r with
    | .ok a => ⟨"message", a, some conversation_id, some model_cfg⟩
    | .error m => ⟨"error", m, none, none⟩

/-- A chunk object carried by an `on_chat_model_stream` event
(`event["data"]["chunk"]`); the code reads its `content` attribute. -/
structure StreamChunk where
  content : String
deriving DecidableEq

/-- One event yielded by `stream_agent` (agent.py lines 102-121), as
observed by the `event_generator` of server.py lines 132-178: the
dispatch is on `event.get("event")`, and only the three recognised kinds
carry data the generator reads.  `chatModelStream` carries
`event.get("data", {}).get("chunk")` (absent → `none`); `toolStart`
carries `event.get("name", "unknown")` (absent → `none`) and the
serialised `event.get("data", {}).get("input", {})`; `toolEnd` carries
`str(event.get("data", {}).get("output"))`.  Every other event kind is
ignored by the generator. -/
inductive AgentEvent
  | chatModelStream (chunk : Option StreamChunk)
  | toolStart (name : Option String) (input : String)
  | toolEnd (output : String)
  | other (kind : String)
deriving DecidableEq

/-- The `metadata` object of one SSE frame body.  Each yield site of
`event_generator` builds exactly one of these shapes. -/
inductive FrameMeta
  | model (m : String)
  | streaming
  | toolInput (i : String)
  | toolOutput (o : String)
  | fullResponse (r : String)
  | empty
deriving DecidableEq

/-- One SSE frame pushed by `GET /api/stream`: the outer `"event"` name
and the JSON body `{"type": dataType, "content": content, "metadata": metadata}`. -/
structure Frame where
  event : String
  dataType : String
  content : String
  metadata : FrameMeta
deriving DecidableEq

/-- The generator's loop state: `current_tool` (server.py line 128) and
`message_content` (line 129, a list appended to on each chunk). -/
structure GenState where
  currentTool : Option String
  messageContent : List String
deriving DecidableEq

/-- The body of the `async for` loop of `event_generator` (server.py
lines 132-178) for a single agent event: the frames yielded for it and
the updated loop state.  A chunk frame is yielded only when the chunk is
present and its `content` is truthy (non-empty); `tool_start` sets
`current_tool` to `event.get("name", "unknown")`; `tool_end` uses
`current_tool or "unknown"` as content, truncates `str(tool_output)` to
500 characters, and resets `current_tool` to `None`. -/
def stepEvent (s : GenState) (e : AgentEvent) : GenState × List Frame :=
  match e with
  | .chatModelStream chunk =>
    match chunk with
    | none => (s, [])
    | some c =>
      if c.content = "" then (s, [])
      else ({ s with messageContent := s.messageContent ++ [c.content] },
            [⟨"message", "message", c.content, .streaming⟩])
  | .toolStart name input =>
    let toolName := name.getD "unknown"
    ({ s with currentTool := some toolName },
     [⟨"tool_start", "tool_start", toolName, .toolInput input⟩])
  | .toolEnd output =>
    ({ s with currentTool := none },
     [⟨"tool_end", "tool_end", s.currentTool.getD "unknown",
       .toolOutput (output.take 500)⟩])
  | .other _ => (s, [])

/-- The whole `async for` loop: fold `stepEvent` over the agent events,
collecting the yielded frames in order. -/
def processEvents : GenState → List AgentEvent → GenState × List Frame
  | s, [] => (s, [])
  | s, e :: es =>
    let p := stepEvent s e
    let q := processEvents p.1 es
    (q.1, p.2 ++ q.2)

/-- The initial frame of every run (server.py lines 119-126). -/
def processingFrame (model_cfg : String) : Frame :=
  ⟨"state_update", "state_update", "processing", .model model_cfg⟩

/-- The terminal frame of a fault-free run (server.py lines 181-190);
`full` is `"".join(message_content)`. -/
def completedFrame (full : String) : Frame :=
  ⟨"state_update", "state_update", "completed", .fullResponse full⟩

/-- The frame yielded by the `except` clause (server.py lines 192-201). -/
def errorFrame (msg : String) : Frame :=
  ⟨"error", "error", msg, .empty⟩

/-- `"".join` of Python: concatenation of a list of strings in order. -/
def strJoin : List String → String
  | [] => ""
  | s :: rest => s ++ strJoin rest

/-- `event_generator` of `GET /api/stream` (server.py lines 115-201) for
one run.  The underlying agent stream is modelled by the list of events
it yields before either finishing normally (`fault = none`) or raising an
exception with message `fault = some msg`; the surrounding `try` turns
the exception into a single final `error` frame. -/
def event_generator (model_cfg : String) (events : List AgentEvent)
    (fault : Option String) : List Frame :=
  processingFrame model_cfg ::
    (let p := processEvents ⟨none, []⟩ events
     match fault with
     | some msg => p.2 ++ [errorFrame msg]
     | none => p.2 ++ [completedFrame (strJoin p.1.messageContent)])

/-- The `GET /health` response body of server.py lines 206-209, as an
ordered field list. -/
def health_check : List (String × String) :=
  [("status", "healthy")]

/-- The `GET /health` response body of server_sdk.py lines 180-187; the
third field depends on whether the startup hook has run. -/
def health_check_sdk (agent_initialized : Bool) : List (String × String) :=
  [("status", "healthy"),
   ("sdk", "ag-ui-langgraph v0.0.24"),
   ("agent", if agent_initialized then "initialized" else "not initialized")]

/- ===== Helper lemmas ===== -/

lemma formatEntries_length (rs : List SearchResult) :
    ∀ k, (formatEntries k rs).length = rs.length := by
  induction rs with
  | nil => intro k; rfl
  | cons r rest ih => intro k; simp [formatEntries, ih]

lemma formatEntries_getElem (rs : List SearchResult) :
    ∀ k i, (formatEntries k rs)[i]? = (rs[i]?).map (fun r => formatEntry (k + i) r) := by
  induction rs with
  | nil => intro k i; simp [formatEntries]
  | cons r rest ih =>
    intro k i
    cases i with
    | zero => simp [formatEntries]
    | succ j =>
      simp only [formatEntries, List.getElem?_cons_succ, ih (k + 1) j]
      have h : k + 1 + j = k + (j + 1) := by omega
      rw [h]

lemma processEvents_messageContent (events : List AgentEvent) :
    ∀ s : GenState,
      (processEvents s events).1.messageContent
        = s.messageContent ++
            ((processEvents s events).2.filter
              (fun f => f.event == "message")).map Frame.content := by
  induction events with
  | nil => intro s; simp [processEvents]
  | cons e es ih =>
    intro s
    cases e with
    | chatModelStream chunk =>
      cases chunk with
      | none => simpa [processEvents, stepEvent] using ih s
      | some c =>
        by_cases hc : c.content = ""
        · simpa [processEvents, stepEvent, hc] using ih s
        · simp [processEvents, stepEvent, hc, ih]
    | toolStart name input => simp [processEvents, stepEvent, ih]
    | toolEnd output => simp [processEvents, stepEvent, ih]
    | other k => simpa [processEvents, stepEvent] using ih s

lemma processEvents_event_mem (events : List AgentEvent) :
    ∀ (s : GenState) (f : Frame), f ∈ (processEvents s events).2 →
      f.event = "message" ∨ f.event = "tool_start" ∨ f.event = "tool_end" := by
  induction events with
  | nil => intro s f hf; simp [processEvents] at hf
  | cons e es ih =>
    intro s f hf
    cases e with
    | chatModelStream chunk =>
      cases chunk with
      | none =>
        simp only [processEvents, stepEvent, List.nil_append] at hf
        exact ih _ f hf
      | some c =>
        by_cases hc : c.content = ""
        · simp only [processEvents, stepEvent, if_pos hc, List.nil_append] at hf
          exact ih _ f hf
        · simp only [processEvents, stepEvent, if_neg hc, List.cons_append,
            List.nil_append, List.mem_cons] at hf
          rcases hf with rfl | hf
          · exact Or.inl rfl
          · exact ih _ f hf
    | toolStart name input =>
      simp only [processEvents, stepEvent, List.cons_append, List.nil_append,
        List.mem_cons] at hf
      rcases hf with rfl | hf
      · exact Or.inr (Or.inl rfl)
      · exact ih _ f hf
    | toolEnd output =>
      simp only [processEvents, stepEvent, List.cons_append, List.nil_append,
        List.mem_cons] at hf
      rcases hf with rfl | hf
      · exact Or.inr (Or.inr rfl)
      · exact ih _ f hf
    | other k =>
      simp only [processEvents, stepEvent, List.nil_append] at hf
      exact ih _ f hf

lemma processEvents_chunk_mem (events : List AgentEvent) :
    ∀ (s : GenState) (c : StreamChunk),
      AgentEvent.chatModelStream (some c) ∈ events → c.content ≠ "" →
        (⟨"message", "message", c.content, .streaming⟩ : Frame)
          ∈ (processEvents s events).2 := by
  induction events with
  | nil => intro s c hc _; simp at hc
  | cons e es ih =>
    intro s c hmem hne
    rcases List.mem_cons.mp hmem with heq | hmem
    · subst heq
      simp [processEvents, stepEvent, hne]
    · have h := ih (stepEvent s e).1 c hmem hne
      simp only [processEvents]
      exact List.mem_append_right _ h

/- ===== Claim theorems ===== -/

/-- Claim C2: for every query string, if no search credential is configured
(the Tavily client is `none`), `web_search` returns normally with a string
that contains both "Error" and "not configured" — shown by the explicit
decomposition of the returned literal. -/
theorem C2_not_configured (q : String) (m : Nat) :
    web_search none m q
      = "Error: Tavily API key not configured. Cannot perform web search."
    ∧ web_search none m q
      = "Error" ++ ": Tavily API key " ++ "not configured"
          ++ ". Cannot perform web search." := by
  have h : ("Error: Tavily API key not configured. Cannot perform web search." : String)
      = "Error" ++ ": Tavily API key " ++ "not configured"
          ++ ". Cannot perform web search." := by decide
  exact ⟨rfl, h⟩

/-- Claim C3: for every query and every exception raised by the provider
call, `web_search` returns normally with exactly the string
"Error performing web search: " followed by the exception's message. -/
theorem C3_provider_exception (q : String) (m : Nat) (client : TavilyClient)
    (msg : String) (h : client q m = .exn msg) :
    web_search (some client) m q = "Error performing web search: " ++ msg := by
  simp [web_search, h]

/-- Witness for C3 at a concrete provider that raises "boom". -/
theorem C3_witness :
    web_search (some (fun _ _ => SearchOutcome.exn "boom")) 5 "q"
      = "Error performing web search: boom" :=
  C3_provider_exception "q" 5 (fun _ _ => SearchOutcome.exn "boom") "boom" rfl

/-- Claim C10: for every query on which the provider call succeeds but
returns an empty or missing result list, `web_search` returns exactly
"No results found for query: " followed by the query. -/
theorem C10_no_results (q : String) (m : Nat) (client : TavilyClient)
    (response : SearchResponse) (h : client q m = .ok response)
    (hres : response.results = none ∨ response.results = some []) :
    web_search (some client) m q = "No results found for query: " ++ q := by
  rcases hres with hres | hres <;> simp [web_search, h, hres]

/-- Witness for C10 at a concrete provider whose response has no
"results" key. -/
theorem C10_witness :
    web_search (some (fun _ _ => SearchOutcome.ok ⟨none⟩)) 5 "q"
      = "No results found for query: q" :=
  C10_no_results "q" 5 (fun _ _ => SearchOutcome.ok ⟨none⟩) ⟨none⟩ rfl (Or.inl rfl)

/-- Claim C7: on a successful provider call with a non-empty result list,
`web_search` returns a text block made of a header line naming the query
followed by entries enumerated from 1, each carrying the result's title,
URL and content snippet; the adapter asks the provider for at most
`Config.TAVILY_MAX_RESULTS` results (default 5), so under the provider's
`max_results` contract the list has at most that many entries. -/
theorem C7_formatted_results (env : Option Nat) (query : String)
    (client : TavilyClient) (results : List SearchResult)
    (hok : client query (Config.TAVILY_MAX_RESULTS env) = .ok ⟨some results⟩)
    (hne : results ≠ [])
    (hcap : results.length ≤ Config.TAVILY_MAX_RESULTS env) :
    Config.TAVILY_MAX_RESULTS none = 5
    ∧ web_search (some client) (Config.TAVILY_MAX_RESULTS env) query
        = String.intercalate "\n"
            (("Search results for: " ++ query ++ "\n") :: formatEntries 1 results)
    ∧ (formatEntries 1 results).length ≤ Config.TAVILY_MAX_RESULTS env
    ∧ ∀ i, i < results.length →
        (formatEntries 1 results)[i]? = (results[i]?).map (fun r =>
          "\n" ++ toString (i + 1) ++ ". " ++ r.title.getD "No title" ++ "\n" ++
          "   URL: " ++ r.url.getD "" ++ "\n" ++
          "   " ++ r.content.getD "No content available" ++ "\n") := by
  refine ⟨rfl, ?_, ?_, ?_⟩
  · match results, hne with
    | r :: rest, _ => simp [web_search, hok]
  · rw [formatEntries_length]; exact hcap
  · intro i hi
    rw [formatEntries_getElem]
    have h1 : 1 + i = i + 1 := Nat.add_comm 1 i
    rw [h1]
    rfl

/-- Witness for C7 at a concrete provider returning one result. -/
theorem C7_witness :
    web_search (some (fun _ _ => SearchOutcome.ok ⟨some [⟨some "T", some "U", some "C"⟩]⟩))
        (Config.TAVILY_MAX_RESULTS none) "q"
      = String.intercalate "\n"
          (("Search results for: " ++ "q" ++ "\n")
            :: formatEntries 1 [⟨some "T", some "U", some "C"⟩])
    ∧ (formatEntries 1 [⟨some "T", some "U", some "C"⟩]).length
        ≤ Config.TAVILY_MAX_RESULTS none := by
  have h := C7_formatted_results none "q"
    (fun _ _ => SearchOutcome.ok ⟨some [⟨some "T", some "U", some "C"⟩]⟩)
    [⟨some "T", some "U", some "C"⟩] rfl (by simp) (by decide)
  exact ⟨h.2.1, h.2.2.1⟩

/-- Claim C1: for every fault-free run of the streaming endpoint's event
generator, the concatenation of the `content` fields of all model-chunk
frames (the frames with event name "message") equals, character for
character, the `full_response` carried by the terminal "completed"
state-update frame. -/
theorem C1_full_response (model_cfg : String) (events : List AgentEvent) :
    (event_generator model_cfg events none).getLast?
      = some (completedFrame (strJoin
          (((event_generator model_cfg events none).filter
              (fun f => f.event == "message")).map Frame.content))) := by
  have hmc := processEvents_messageContent events ⟨none, []⟩
  simp only [event_generator]
  rw [← List.cons_append, List.getLast?_concat]
  simp only [List.filter_append, List.filter_cons, processingFrame, completedFrame]
  norm_num
  simp only [if_neg (show ¬("state_update" = "message") by decide), List.map_nil,
    List.append_nil, List.map_append, hmc, List.nil_append]

lemma processEvents_countP_error (events : List AgentEvent) (s : GenState) :
    (processEvents s events).2.countP (fun f => f.event == "error") = 0 := by
  rw [List.countP_eq_zero]
  intro f hf
  have hb : (f.event == "error") = false := by
    rcases processEvents_event_mem events s f hf with h | h | h <;> rw [h] <;> rfl
  simp [hb]

lemma processEvents_countP_state_update (events : List AgentEvent) (s : GenState)
    (c : String) :
    (processEvents s events).2.countP
      (fun f => f.event == "state_update" && f.content == c) = 0 := by
  rw [List.countP_eq_zero]
  intro f hf
  have hb : (f.event == "state_update") = false := by
    rcases processEvents_event_mem events s f hf with h | h | h <;> rw [h] <;> rfl
  simp [hb]

/-- Claim C5: when the underlying agent stream raises, exactly one "error"
frame is emitted, its content is the exception's message, and it is the
last frame of the run (nothing is emitted after it). -/
theorem C5_fault_terminates (model_cfg : String) (events : List AgentEvent)
    (msg : String) :
    (event_generator model_cfg events (some msg)).countP
        (fun f => f.event == "error") = 1
    ∧ (event_generator model_cfg events (some msg)).getLast?
        = some (errorFrame msg) := by
  constructor
  · have hz := processEvents_countP_error events ⟨none, []⟩
    simp [event_generator, List.countP_cons, List.countP_append, hz,
      processingFrame, errorFrame]
  · simp only [event_generator]
    rw [← List.cons_append, List.getLast?_concat]

/-- Claim C6: every run's first frame is the "processing" state update and
it occurs exactly once (whatever the fault); a fault-free run ends with
the "completed" state update, which also occurs exactly once. -/
theorem C6_state_update_order (model_cfg : String) (events : List AgentEvent)
    (fault : Option String) :
    (event_generator model_cfg events fault).head?
        = some (processingFrame model_cfg)
    ∧ (event_generator model_cfg events fault).countP
        (fun f => f.event == "state_update" && f.content == "processing") = 1
    ∧ (∃ full, (event_generator model_cfg events none).getLast?
        = some (completedFrame full))
    ∧ (event_generator model_cfg events none).countP
        (fun f => f.event == "state_update" && f.content == "completed") = 1 := by
  refine ⟨?_, ?_, ?_, ?_⟩
  · simp [event_generator]
  · have hz := processEvents_countP_state_update events ⟨none, []⟩ "processing"
    cases fault with
    | none =>
      simp [event_generator, List.countP_cons, List.countP_append, hz,
        processingFrame, completedFrame]
    | some msg =>
      simp [event_generator, List.countP_cons, List.countP_append, hz,
        processingFrame, errorFrame]
  · refine ⟨strJoin (processEvents ⟨none, []⟩ events).1.messageContent, ?_⟩
    simp only [event_generator]
    rw [← List.cons_append, List.getLast?_concat]
  · have hz := processEvents_countP_state_update events ⟨none, []⟩ "completed"
    simp [event_generator, List.countP_cons, List.countP_append, hz,
      processingFrame, completedFrame]

/-- Claim C4 (amended): every frame pushed by `GET /api/stream` carries an
event name drawn from {state_update, message, tool_start, tool_end, error}
— the code's name for a model content fragment is "message", not
"message_chunk" — and each non-empty content fragment of the model is
delivered as a frame with event name "message" whose content is exactly
that fragment. -/
theorem C4_event_names (model_cfg : String) (events : List AgentEvent)
    (fault : Option String) :
    (∀ f ∈ event_generator model_cfg events fault,
        f.event = "state_update" ∨ f.event = "message" ∨ f.event = "tool_start"
          ∨ f.event = "tool_end" ∨ f.event = "error")
    ∧ (∀ c : StreamChunk, AgentEvent.chatModelStream (some c) ∈ events →
        c.content ≠ "" →
        (⟨"message", "message", c.content, .streaming⟩ : Frame)
          ∈ event_generator model_cfg events fault) := by
  constructor
  · intro f hf
    cases fault with
    | none =>
      simp only [event_generator, List.mem_cons, List.mem_append,
        List.mem_singleton] at hf
      rcases hf with rfl | hf | rfl | h0
      · exact Or.inl rfl
      · rcases processEvents_event_mem events ⟨none, []⟩ f hf with h | h | h
        · exact Or.inr (Or.inl h)
        · exact Or.inr (Or.inr (Or.inl h))
        · exact Or.inr (Or.inr (Or.inr (Or.inl h)))
      · exact Or.inl rfl
      · simp at h0
    | some msg =>
      simp only [event_generator, List.mem_cons, List.mem_append,
        List.mem_singleton] at hf
      rcases hf with rfl | hf | rfl | h0
      · exact Or.inl rfl
      · rcases processEvents_event_mem events ⟨none, []⟩ f hf with h | h | h
        · exact Or.inr (Or.inl h)
        · exact Or.inr (Or.inr (Or.inl h))
        · exact Or.inr (Or.inr (Or.inr (Or.inl h)))
      · exact Or.inr (Or.inr (Or.inr (Or.inr rfl)))
      · simp at h0
  · intro c hc hne
    have h := processEvents_chunk_mem events ⟨none, []⟩ c hc hne
    cases fault with
    | none =>
      simp only [event_generator]
      exact List.mem_cons_of_mem _ (List.mem_append_left _ h)
    | some msg =>
      simp only [event_generator]
      exact List.mem_cons_of_mem _ (List.mem_append_left _ h)

/-- Witness for the amended C4: a concrete run with one fragment "Hi"
contains the corresponding "message" frame. -/
theorem C4_witness :
    (⟨"message", "message", "Hi", .streaming⟩ : Frame)
      ∈ event_generator "gpt-4o-mini"
          [AgentEvent.chatModelStream (some ⟨"Hi"⟩)] none :=
  (C4_event_names "gpt-4o-mini" [AgentEvent.chatModelStream (some ⟨"Hi"⟩)] none).2
    ⟨"Hi"⟩ (by simp) (by decide)

/-- Counterexample to C4 as stated: in the run with a single model
fragment "Hello", no frame carries the event name "message_chunk"; the
fragment is pushed under the event name "message", which lies outside the
claimed event-name set. -/
theorem C4_counterexample :
    ((event_generator "gpt-4o-mini"
        [AgentEvent.chatModelStream (some ⟨"Hello"⟩)] none).filter
          (fun f => f.event == "message_chunk")).length = 0
    ∧ ((event_generator "gpt-4o-mini"
        [AgentEvent.chatModelStream (some ⟨"Hello"⟩)] none).filter
          (fun f => f.event == "message")).length = 1
    ∧ ((event_generator "gpt-4o-mini"
        [AgentEvent.chatModelStream (some ⟨"Hello"⟩)] none).filter
          (fun f => !(f.event == "state_update" || f.event == "message_chunk"
            || f.event == "tool_start" || f.event == "tool_end"
            || f.event == "error"))).length = 1 := by
  decide

/-- Claim C8: the `POST /api/chat` handler always returns a body typed
"message" or "error"; when the agent run completes normally the body is
"message" with the run's final answer, and when the run (or the final
message extraction) raises the body is "error" with the exception's
message — the handler never propagates the exception (it is a total
function on every invoke outcome). -/
theorem C8_chat_handler (invoke_outcome : Except String (Option (List AgentFinalMessage)))
    (conversation_id : Option String) (model_cfg : String) :
    ((chat_handler invoke_outcome conversation_id model_cfg).resp_type = "message"
      ∨ (chat_handler invoke_outcome conversation_id model_cfg).resp_type = "error")
    ∧ (∀ r a, invoke_outcome = .ok r → run_agent r = .ok a →
        chat_handler invoke_outcome conversation_id model_cfg
          = ⟨"message", a, some conversation_id, some model_cfg⟩)
    ∧ (∀ m, invoke_outcome = .error m →
        chat_handler invoke_outcome conversation_id model_cfg
          = ⟨"error", m, none, none⟩)
    ∧ (∀ r m, invoke_outcome = .ok r → run_agent r = .error m →
        chat_handler invoke_outcome conversation_id model_cfg
          = ⟨"error", m, none, none⟩) := by
  refine ⟨?_, ?_, ?_, ?_⟩
  · cases invoke_outcome with
    | error m => exact Or.inr rfl
    | ok r =>
      cases h : run_agent r with
      | ok a => left; simp [chat_handler, h]
      | error m => right; simp [chat_handler, h]
  · intro r a hinv hrun
    subst hinv
    simp [chat_handler, hrun]
  · intro m hinv
    subst hinv
    rfl
  · intro r m hinv hrun
    subst hinv
    simp [chat_handler, hrun]

/-- Witness for C8: a normally completing run whose final message has
content "4" yields the "message" body carrying "4". -/
theorem C8_witness :
    chat_handler (Except.ok (some [⟨some "4", "AIMessage"⟩]))
        (some "c1") "gpt-4o-mini"
      = ⟨"message", "4", some (some "c1"), some "gpt-4o-mini"⟩ :=
  (C8_chat_handler (Except.ok (some [⟨some "4", "AIMessage"⟩]))
      (some "c1") "gpt-4o-mini").2.1
    (some [⟨some "4", "AIMessage"⟩]) "4" rfl rfl

/-- Claim C9 (amended): both server variants answer `GET /health` with a
body whose "status" field is "healthy", regardless of server state; the
body of server.py is exactly {"status": "healthy"} with no additional
fields, while the server_sdk.py variant adds "sdk" and "agent" fields. -/
theorem C9_health_status (agent_initialized : Bool) :
    health_check = [("status", "healthy")]
    ∧ (health_check_sdk agent_initialized).lookup "status" = some "healthy"
    ∧ health_check.lookup "status" = some "healthy" := by
  refine ⟨rfl, ?_, rfl⟩
  cases agent_initialized <;> rfl

/-- Counterexample to C9 as stated: the server_sdk.py variant's `/health`
body has three fields ("status", "sdk", "agent"), not the single field
{"status": "healthy"} the claim requires of every GET /health request. -/
theorem C9_counterexample :
    (health_check_sdk false).length = 3
    ∧ (health_check_sdk false).map Prod.fst = ["status", "sdk", "agent"]
    ∧ health_check.length = 1 := by
  decide
